import Mathlib

/-!
Shallow embedding of the GREEN-GROW account server (src/server/server.js).

The store is a list of user documents; the four request handlers are pure
functions over it.  External primitives (bcrypt, jwt, Math.random, Mongo id
generation) are passed in as explicit parameters or modelled as data, so that
every definition stays executable.  Line numbers in doc comments refer to
src/server/server.js.
-/

namespace GreenGrow

/-- Payload of the signed bearer token, `jwt.sign({id:u._id, email:u.email}, ...)`
(lines 81 and 101); the same shape is the decoded claims object the auth
middleware attaches to the request (line 116). -/
structure TokenPayload where
  id : Nat
  email : String
  deriving DecidableEq, Repr

/-- A persisted user document (UserSchema, lines 20-33).  `id` models the Mongo
`_id`; `balance : Option Int` models a numeric field that may be absent or null
in a stored document (the schema declares default 0, but the crediting code
still guards with `sponsor.balance || 0`); `createdAt` is not modelled, since
no claim depends on time. -/
structure JsUser where
  id : Nat
  email : String
  passwordHash : String
  fullName : Option String
  phone : Option String
  country : Option String
  city : Option String
  zipCode : Option String
  referralCode : String
  referredBy : Option String
  balance : Option Int
  points : Int
  deriving DecidableEq, Repr

/-- A user document as returned by GET /api/user/me: `.select('-passwordHash')`
(line 126) omits the password hash and keeps every other stored field. -/
structure PublicUser where
  id : Nat
  email : String
  fullName : Option String
  phone : Option String
  country : Option String
  city : Option String
  zipCode : Option String
  referralCode : String
  referredBy : Option String
  balance : Option Int
  points : Int
  deriving DecidableEq, Repr

/-- Projection of a stored document to its public form, the password hash
omitted (line 126). -/
def redact (u : JsUser) : PublicUser :=
  { id := u.id
    email := u.email
    fullName := u.fullName
    phone := u.phone
    country := u.country
    city := u.city
    zipCode := u.zipCode
    referralCode := u.referralCode
    referredBy := u.referredBy
    balance := u.balance
    points := u.points }

/-- JS truthiness test `!x` for an optional string field: true when the field
is missing/null or is the empty string. -/
def jsFalsyStr : Option String → Bool
  | none => true
  | some s => s.isEmpty

/-- JS `a || d` for an optional numeric field `a`: missing/null and 0 are
falsy, any other number is truthy. -/
def jsNumOr (a : Option Int) (d : Int) : Int :=
  match a with
  | none => d
  | some n => if n = 0 then d else n

/-- Sponsor commission credit, line 73:
`sponsor.balance = (sponsor.balance || 0) + 1000`. -/
def creditSponsor (sponsor : JsUser) : JsUser :=
  { sponsor with balance := some (jsNumOr sponsor.balance 0 + 1000) }

/-- Body of POST /api/auth/register (line 49); every field may be absent. -/
structure RegisterReq where
  email : Option String
  password : Option String
  fullName : Option String
  phone : Option String
  country : Option String
  city : Option String
  zipCode : Option String
  referralCode : Option String
  deriving DecidableEq, Repr

/-- The new user document constructed at lines 60-66.  `freshId` models the
`_id` mongoose assigns at construction, `hashv` the bcrypt hash of the
password, `userReferral` the freshly generated referral code;
`referredBy: referralCode || null` (line 65); `balance` and `points` take the
schema defaults. -/
def mkNewUser (req : RegisterReq) (freshId : Nat) (hashv userReferral : String) :
    JsUser :=
  { id := freshId
    email := req.email.getD ("")
    passwordHash := hashv
    fullName := req.fullName
    phone := req.phone
    country := req.country
    city := req.city
    zipCode := req.zipCode
    referralCode := userReferral
    referredBy := if jsFalsyStr req.referralCode then none else req.referralCode
    balance := some 0
    points := 0 }

/-- A store write performed and persisted by the register handler; the list of
these records the persistence order. -/
inductive WriteEvent where
  | sponsorSave (id : Nat) (newBalance : Option Int)
  | userSave (id : Nat)
  deriving DecidableEq, Repr

/-- HTTP responses of the handlers.  Error responses carry the status code and
the `error` string exactly as written in the source. -/
inductive Resp where
  | err (status : Nat) (msg : String)
  | registered (token : TokenPayload) (referralCode : String)
  | loginOk (token : TokenPayload)
  | profile (u : PublicUser)
  | paymentOk (msg : String)
  deriving DecidableEq, Repr

/-- POST /api/auth/register (lines 46-87) over the store `db`.  The
non-deterministic primitives are passed in: `userReferral` is the value of
`genReferral()`, `freshId` the new `_id`, `hash` a pure stand-in for
`bcrypt.hash`.  `sponsorSaveOk` and `userSaveOk` decide whether the two
`save()` calls succeed; a failing save throws, persists nothing, and the
catch-all (lines 83-86) turns it into the 500 response.  Returns the response,
the final store, and the persisted writes in order. -/
def register (db : List JsUser) (req : RegisterReq) (freshId : Nat)
    (hash : String → String) (userReferral : String)
    (sponsorSaveOk userSaveOk : Bool) : Resp × List JsUser × List WriteEvent :=
  if jsFalsyStr req.email || jsFalsyStr req.password then
    (.err 400 "Email and password required", db, [])
  else
    match db.find? (fun v => req.email = some v.email) with
    | some _ => (.err 400 "Email already registered", db, [])
    | none =>
      let u := mkNewUser req freshId (hash (req.password.getD (""))) userReferral
      if jsFalsyStr req.referralCode then
        if userSaveOk then
          (.registered ⟨freshId, u.email⟩ userReferral, db ++ [u],
            [.userSave freshId])
        else (.err 500 "Server error", db, [])
      else
        match db.find? (fun v => req.referralCode = some v.referralCode) with
        | none =>
          if userSaveOk then
            (.registered ⟨freshId, u.email⟩ userReferral, db ++ [u],
              [.userSave freshId])
          else (.err 500 "Server error", db, [])
        | some sponsor =>
          if sponsorSaveOk then
            let db1 := db.map fun v =>
              if v.id = sponsor.id then creditSponsor sponsor else v
            if userSaveOk then
              (.registered ⟨freshId, u.email⟩ userReferral, db1 ++ [u],
                [.sponsorSave sponsor.id (creditSponsor sponsor).balance,
                 .userSave freshId])
            else
              (.err 500 "Server error", db1,
                [.sponsorSave sponsor.id (creditSponsor sponsor).balance])
          else (.err 500 "Server error", db, [])

/-- POST /api/auth/login (lines 90-107).  `compare` is a pure stand-in for
`bcrypt.compare`. -/
def login (db : List JsUser) (email password : Option String)
    (compare : String → String → Bool) : Resp :=
  if jsFalsyStr email || jsFalsyStr password then
    .err 400 "Email and password required"
  else
    match db.find? (fun v => email = some v.email) with
    | none => .err 400 "Invalid credentials"
    | some user =>
      if compare (password.getD ("")) user.passwordHash then
        .loginOk ⟨user.id, user.email⟩
      else .err 400 "Invalid credentials"

/-- Outcome of the auth middleware (lines 110-121): either a rejection
response, or control passed to the downstream handler with the decoded claims
attached as `req.user`. -/
inductive AuthOutcome where
  | reject (status : Nat) (msg : String)
  | proceed (claims : TokenPayload)
  deriving DecidableEq, Repr

/-- JS `String.prototype.split(' ')` on a character list: cut at every space
character, keeping empty segments, so that `"a b"` gives `["a", "b"]`, `""`
gives `[""]` and `"a  b"` gives `["a", "", "b"]`. -/
def splitSpace : List Char → List Char → List (List Char)
  | [], acc => [acc.reverse]
  | c :: rest, acc =>
    if c = ' ' then acc.reverse :: splitSpace rest []
    else splitSpace rest (c :: acc)

/-- The token extraction of line 113, `header.split(' ')[1]`: the segment
between the first and the second space character, `none` when the split has no
second element (JS `undefined`). -/
def secondSegment (header : String) : Option String :=
  ((splitSpace header.data []).get? 1).map fun cs => ⟨cs⟩

/-- The auth middleware (lines 110-121).  `header` is
`req.headers['authorization']`; `verify` is a pure stand-in for `jwt.verify`,
returning `none` when verification throws (bad or expired signature, or a
missing token: `jwt.verify(undefined, ...)` throws as well, so an absent
second segment lands in the catch block). -/
def auth (header : Option String) (verify : String → Option TokenPayload) :
    AuthOutcome :=
  if jsFalsyStr header then .reject 401 "No token"
  else
    match secondSegment (header.getD ("")) with
    | none => .reject 401 "Invalid token"
    | some t =>
      match verify t with
      | none => .reject 401 "Invalid token"
      | some claims => .proceed claims

/-- GET /api/user/me (lines 124-133).  `findOk` decides whether the
`findById` lookup itself succeeds; a throwing lookup is caught and yields the
500 response. -/
def getMe (db : List JsUser) (claims : TokenPayload) (findOk : Bool) : Resp :=
  if findOk then
    match db.find? (fun v => v.id = claims.id) with
    | none => .err 404 "User not found"
    | some u => .profile (redact u)
  else .err 500 "Server error"

/-- POST /api/payment/process (lines 136-140): always the fixed simulated
success message; it reads and writes nothing. -/
def payment (claims : TokenPayload) : Resp :=
  .paymentOk ("Payment processing simulated. Integrate Stripe for live payments.")

/-- One incoming request, with all the non-deterministic inputs it needs. -/
inductive Op where
  | register (req : RegisterReq) (freshId : Nat) (hash : String → String)
      (userReferral : String) (sponsorSaveOk userSaveOk : Bool)
  | login (email password : Option String) (compare : String → String → Bool)
  | me (claims : TokenPayload) (findOk : Bool)
  | payment (claims : TokenPayload)

/-- The store after handling one request.  Only the register handler writes to
the store; login (lines 90-107), the profile read (124-133) and the payment
stub (136-140) leave it untouched. -/
def applyOp : Op → List JsUser → List JsUser
  | .register req freshId hash userReferral sOk uOk, db =>
      (register db req freshId hash userReferral sOk uOk).2.1
  | .login _ _ _, db => db
  | .me _ _, db => db
  | .payment _, db => db

/-- The 36 characters `Number.prototype.toString(36)` emits: decimal digits
then lowercase letters. -/
def base36Chars : List Char :=
  ("0123456789abcdefghijklmnopqrstuvwxyz").toList

/-- Strings `Math.random().toString(36)` can produce: `"0"` for the value 0,
otherwise `"0."` followed by the base-36 expansion of the fraction, which ends
in a nonzero digit (no trailing zeros are printed).  Every double in [0,1) is
a dyadic rational, so the expansion is finite and can have any positive
length: 0.5 prints as `"0.i"`. -/
def isRandom36Repr (s : String) : Bool :=
  s = "0" ||
    (s.data.take 2 = ['0', '.'] &&
      1 ≤ (s.data.drop 2).length &&
      (s.data.drop 2).all (fun c => decide (c ∈ base36Chars)) &&
      (s.data.drop 2).getLast? ≠ some '0')

/-- genReferral (lines 41-43): `'GG' + rand.substring(2,8).toUpperCase()`
where `rand` is the string `Math.random().toString(36)` produced.
`substring(2,8)` takes the code units at indices 2..7 — fewer when the string
is shorter — i.e. `(rand.data.drop 2).take 6`; `toUpperCase` on these ASCII
characters is `Char.toUpper`. -/
def genReferral (rand : String) : String :=
  ⟨'G' :: 'G' :: ((rand.data.drop 2).take 6).map Char.toUpper⟩

/-- Uppercase alphanumeric character: a decimal digit or an uppercase ASCII
letter. -/
def isUpperAlnum (c : Char) : Bool := c.isDigit || c.isUpper

/-- Modelled from the spec wording, for comparison with `genReferral`: the
claimed referral-code format, the fixed prefix "GG" followed by exactly six
uppercase alphanumeric characters. -/
def specReferralFormat (s : String) : Bool :=
  s.data.take 2 = ['G', 'G'] &&
    (s.data.drop 2).length = 6 &&
    (s.data.drop 2).all isUpperAlnum

/-! Sample data used by the witness theorems. -/

/-- A pre-existing account, the sponsor in the witnesses. -/
def w1 : JsUser :=
  { id := 1
    email := "a@x.com"
    passwordHash := "h1"
    fullName := none
    phone := none
    country := none
    city := none
    zipCode := none
    referralCode := "R1"
    referredBy := none
    balance := some 0
    points := 0 }

/-- A one-account store. -/
def sampleDb : List JsUser := [w1]

/-- A pure stand-in for bcrypt.hash in the witnesses. -/
def sampleHash : String → String := fun s => s ++ "#"

/-- A pure stand-in for jwt.verify in the witnesses: exactly one valid token. -/
def sampleVerify : String → Option TokenPayload := fun t =>
  if t = "tok123" then some ⟨1, "a@x.com"⟩ else none

/-- A registration request carrying the sponsor's referral code. -/
def sampleReq : RegisterReq :=
  { email := some ("b@x.com")
    password := some ("pw2")
    fullName := none
    phone := none
    country := none
    city := none
    zipCode := none
    referralCode := some ("R1") }

/-! Helper lemmas. -/

/-- With default 0, the JS guard `balance || 0` agrees with `Option.getD`:
a missing balance and a zero balance both yield 0. -/
theorem jsNumOr_zero (a : Option Int) : jsNumOr a 0 = a.getD 0 := by
  rcases a with _ | n
  · rfl
  · unfold jsNumOr
    split <;> simp_all

/-- C9: sponsor crediting is total over the balance field: a missing, null or
zero stored balance is treated as 0, and the credited balance is always the
numeric previous-balance-or-0 plus 1000. -/
theorem creditSponsor_total (sponsor : JsUser) :
    (creditSponsor sponsor).balance = some (sponsor.balance.getD 0 + 1000) := by
  unfold creditSponsor
  rw [jsNumOr_zero]

/-- C4: with both login fields present, the response for an unknown email and
the response for a known email with a failing password comparison are the same
value: status 400 with message "Invalid credentials". -/
theorem login_error_indistinguishable (db1 db2 : List JsUser)
    (e1 p1 e2 p2 : Option String) (compare : String → String → Bool)
    (h1v : (jsFalsyStr e1 || jsFalsyStr p1) = false)
    (h2v : (jsFalsyStr e2 || jsFalsyStr p2) = false)
    (h1 : db1.find? (fun v => e1 = some v.email) = none)
    (u : JsUser) (h2 : db2.find? (fun v => e2 = some v.email) = some u)
    (hpw : compare (p2.getD ("")) u.passwordHash = false) :
    login db1 e1 p1 compare = .err 400 "Invalid credentials" ∧
    login db2 e2 p2 compare = .err 400 "Invalid credentials" := by
  constructor
  · unfold login
    rw [h1v, h1]
    rfl
  · unfold login
    rw [h2v, h2]
    simp [hpw]

theorem login_error_indistinguishable_witness :
    login [] (some ("z@x.com")) (some ("pw")) (fun _ _ => false) =
      .err 400 "Invalid credentials" ∧
    login sampleDb (some ("a@x.com")) (some ("bad")) (fun _ _ => false) =
      .err 400 "Invalid credentials" := by
  have h := login_error_indistinguishable [] sampleDb (some ("z@x.com"))
    (some ("pw")) (some ("a@x.com")) (some ("bad")) (fun _ _ => false)
    rfl rfl rfl w1 (by decide) rfl
  exact h

/-- C5: a registration whose email already belongs to an existing account
fails with the duplicate-email error and leaves the store completely
unchanged: the final store is the old store and no write is persisted. -/
theorem register_duplicate_email_frame (db : List JsUser) (req : RegisterReq)
    (freshId : Nat) (hash : String → String) (userReferral : String)
    (sOk uOk : Bool) (u : JsUser)
    (hval : (jsFalsyStr req.email || jsFalsyStr req.password) = false)
    (hdup : db.find? (fun v => req.email = some v.email) = some u) :
    register db req freshId hash userReferral sOk uOk =
      (.err 400 "Email already registered", db, []) := by
  unfold register
  rw [hval, hdup]
  rfl

theorem register_duplicate_email_frame_witness :
    register sampleDb
      { email := some ("a@x.com")
        password := some ("other")
        fullName := none
        phone := none
        country := none
        city := none
        zipCode := none
        referralCode := none } 9 sampleHash ("GGZZZZZZ") true true =
      (.err 400 "Email already registered", sampleDb, []) := by
  have h := register_duplicate_email_frame sampleDb
    { email := some ("a@x.com")
      password := some ("other")
      fullName := none
      phone := none
      country := none
      city := none
      zipCode := none
      referralCode := none } 9 sampleHash ("GGZZZZZZ") true true w1 rfl (by decide)
  exact h

/-- C7: the profile handler returns 500 when the lookup itself fails, 404 when
no account has the authenticated id, and otherwise the found account with the
password hash omitted; the redaction forgets the hash entirely. -/
theorem profile_fetch_spec (db : List JsUser) (claims : TokenPayload) :
    getMe db claims false = .err 500 "Server error" ∧
    (db.find? (fun v => v.id = claims.id) = none →
      getMe db claims true = .err 404 "User not found") ∧
    (∀ u, db.find? (fun v => v.id = claims.id) = some u →
      getMe db claims true = .profile (redact u)) ∧
    (∀ u p, redact { u with passwordHash := p } = redact u) := by
  refine ⟨rfl, fun hn => ?_, fun u hu => ?_, fun u p => rfl⟩
  · unfold getMe
    rw [hn]
    rfl
  · unfold getMe
    rw [hu]
    rfl

theorem profile_fetch_spec_witness :
    getMe sampleDb ⟨1, "a@x.com"⟩ true = .profile (redact w1) ∧
    getMe sampleDb ⟨2, "b@x.com"⟩ true = .err 404 "User not found" ∧
    getMe sampleDb ⟨1, "a@x.com"⟩ false = .err 500 "Server error" := by
  refine ⟨(profile_fetch_spec sampleDb ⟨1, "a@x.com"⟩).2.2.1 w1 (by decide), ?_, ?_⟩
  · exact (profile_fetch_spec sampleDb ⟨2, "b@x.com"⟩).2.1 (by decide)
  · exact (profile_fetch_spec sampleDb ⟨1, "a@x.com"⟩).1

/-- Evaluation of the auth middleware on a nonempty header: the outcome
depends only on the second space-separated segment and its verification. -/
theorem auth_some_eval (h : String) (hne : h ≠ "")
    (verify : String → Option TokenPayload) :
    auth (some h) verify =
      match secondSegment h with
      | none => .reject 401 "Invalid token"
      | some t =>
        match verify t with
        | none => .reject 401 "Invalid token"
        | some claims => .proceed claims := by
  have hf : jsFalsyStr (some h) = false := by
    cases he : h.isEmpty
    · exact he
    · exact absurd ((String.isEmpty_iff h).mp he) hne
  unfold auth
  rw [hf]
  rfl

/-- C6: the session guard rejects a missing authorization header with 401
"No token", rejects a header whose extracted token fails verification with 401
"Invalid token", and on a valid token proceeds with the decoded claims
attached. -/
theorem auth_guard_cases (verify : String → Option TokenPayload) :
    auth none verify = .reject 401 "No token" ∧
    (∀ h t, secondSegment h = some t → verify t = none →
      auth (some h) verify = .reject 401 "Invalid token") ∧
    (∀ h t claims, secondSegment h = some t → verify t = some claims →
      auth (some h) verify = .proceed claims) := by
  refine ⟨rfl, fun h t hseg hv => ?_, fun h t claims hseg hv => ?_⟩
  · have hne : h ≠ "" := by
      intro he
      subst he
      have h0 : secondSegment ("") = none := by decide
      rw [h0] at hseg
      cases hseg
    rw [auth_some_eval h hne verify, hseg]
    simp [hv]
  · have hne : h ≠ "" := by
      intro he
      subst he
      have h0 : secondSegment ("") = none := by decide
      rw [h0] at hseg
      cases hseg
    rw [auth_some_eval h hne verify, hseg]
    simp [hv]

theorem auth_guard_cases_witness :
    auth none sampleVerify = .reject 401 "No token" ∧
    auth (some ("Bearer bad")) sampleVerify = .reject 401 "Invalid token" ∧
    auth (some ("Bearer tok123")) sampleVerify = .proceed ⟨1, "a@x.com"⟩ := by
  have h := auth_guard_cases sampleVerify
  refine ⟨h.1, h.2.1 ("Bearer bad") ("bad") (by decide) (by decide), ?_⟩
  exact h.2.2 ("Bearer tok123") ("tok123") ⟨1, "a@x.com"⟩ (by decide) (by decide)

/-- C10: the guard never inspects the scheme word: the outcome depends only on
the second space-separated segment, any header whose second segment verifies is
accepted whatever its first word, and a header lacking a second segment is
rejected as "Invalid token", not "No token". -/
theorem auth_ignores_scheme (verify : String → Option TokenPayload) :
    (∀ h1 h2, h1 ≠ "" → h2 ≠ "" → secondSegment h1 = secondSegment h2 →
      auth (some h1) verify = auth (some h2) verify) ∧
    (∀ h t claims, secondSegment h = some t → verify t = some claims →
      auth (some h) verify = .proceed claims) ∧
    (∀ h, h ≠ "" → secondSegment h = none →
      auth (some h) verify = .reject 401 "Invalid token") := by
  refine ⟨fun h1 h2 hn1 hn2 he => ?_, fun h t claims hseg hv => ?_,
    fun h hn hseg => ?_⟩
  · rw [auth_some_eval h1 hn1 verify, auth_some_eval h2 hn2 verify, he]
  · have hne : h ≠ "" := by
      intro he
      subst he
      have h0 : secondSegment ("") = none := by decide
      rw [h0] at hseg
      cases hseg
    rw [auth_some_eval h hne verify, hseg]
    simp [hv]
  · rw [auth_some_eval h hn verify, hseg]

theorem auth_ignores_scheme_witness :
    auth (some ("Token tok123")) sampleVerify = .proceed ⟨1, "a@x.com"⟩ ∧
    auth (some ("Bearer")) sampleVerify = .reject 401 "Invalid token" ∧
    auth (some ("Bearer tok123 x")) sampleVerify =
      auth (some ("NotBearer tok123 y")) sampleVerify := by
  have h := auth_ignores_scheme sampleVerify
  refine ⟨h.2.1 ("Token tok123") ("tok123") ⟨1, "a@x.com"⟩ (by decide) (by decide),
    h.2.2 ("Bearer") (by decide) (by decide), ?_⟩
  exact h.1 ("Bearer tok123 x") ("NotBearer tok123 y") (by decide) (by decide)
    (by decide)

/-- Uppercasing any character toString(36) emits yields an uppercase
alphanumeric character. -/
theorem upper_of_base36 : ∀ c ∈ base36Chars, isUpperAlnum (Char.toUpper c) = true := by
  decide

/-- C3 amended: the referral code is the prefix "GG" followed by AT MOST six
uppercase alphanumeric characters; it has exactly six whenever the random
value's base-36 expansion carries at least six fractional digits (the typical
case), but a double whose expansion terminates earlier yields a shorter code. -/
theorem genReferral_format_at_most_six (s : String)
    (hs : isRandom36Repr s = true) :
    ∃ t : List Char, (genReferral s).data = 'G' :: 'G' :: t ∧
      t.length ≤ 6 ∧ t.all isUpperAlnum = true ∧
      (6 ≤ (s.data.drop 2).length → t.length = 6) := by
  refine ⟨((s.data.drop 2).take 6).map Char.toUpper, rfl, ?_, ?_, ?_⟩
  · rw [List.length_map, List.length_take]
    exact min_le_left _ _
  · rw [List.all_map, List.all_eq_true]
    intro c hc
    have hc2 : c ∈ s.data.drop 2 := List.take_subset _ _ hc
    simp only [isRandom36Repr, Bool.or_eq_true, Bool.and_eq_true,
      decide_eq_true_eq] at hs
    rcases hs with hs | ⟨⟨⟨h1, h2⟩, hall⟩, h4⟩
    · subst hs
      simp at hc2
    · rw [List.all_eq_true] at hall
      exact upper_of_base36 c (of_decide_eq_true (hall c hc2))
  · intro h6
    rw [List.length_map, List.length_take]
    omega

theorem genReferral_format_witness :
    isRandom36Repr ("0.1a2b3c") = true ∧
    (∃ t : List Char, (genReferral ("0.1a2b3c")).data = 'G' :: 'G' :: t ∧
      t.length ≤ 6 ∧ t.all isUpperAlnum = true ∧
      (6 ≤ (("0.1a2b3c" : String).data.drop 2).length → t.length = 6)) :=
  ⟨by decide, genReferral_format_at_most_six ("0.1a2b3c") (by decide)⟩

/-- C3 counterexample: the double 0.5 is a possible value of Math.random(),
prints in base 36 as "0.i", and genReferral then returns "GGI" — the fixed
prefix followed by a single character, not six. -/
theorem genReferral_not_always_six :
    isRandom36Repr ("0.i") = true ∧
    genReferral ("0.i") = "GGI" ∧
    specReferralFormat (genReferral ("0.i")) = false := by
  exact ⟨by decide, by decide, by decide⟩

/-- C1: for a registration that passes validation and the email-uniqueness
check, a supplied referral code matching an existing account credits that
sponsor's balance by exactly 1000 in the persisted store; an absent or
unmatched code leaves the store as the old accounts plus the new one, all old
balances untouched, and registration still succeeds. -/
theorem register_sponsor_credit (db : List JsUser) (req : RegisterReq)
    (freshId : Nat) (hash : String → String) (userReferral : String)
    (hval : (jsFalsyStr req.email || jsFalsyStr req.password) = false)
    (hnew : db.find? (fun v => req.email = some v.email) = none) :
    (∀ sponsor, jsFalsyStr req.referralCode = false →
      db.find? (fun v => req.referralCode = some v.referralCode) = some sponsor →
      register db req freshId hash userReferral true true =
        (.registered ⟨freshId, req.email.getD ("")⟩ userReferral,
         db.map (fun v => if v.id = sponsor.id then creditSponsor sponsor else v) ++
           [mkNewUser req freshId (hash (req.password.getD (""))) userReferral],
         [.sponsorSave sponsor.id (creditSponsor sponsor).balance,
          .userSave freshId]) ∧
      (creditSponsor sponsor).balance = some (sponsor.balance.getD 0 + 1000)) ∧
    (∀ sOk, (jsFalsyStr req.referralCode = true ∨
        db.find? (fun v => req.referralCode = some v.referralCode) = none) →
      register db req freshId hash userReferral sOk true =
        (.registered ⟨freshId, req.email.getD ("")⟩ userReferral,
         db ++ [mkNewUser req freshId (hash (req.password.getD (""))) userReferral],
         [.userSave freshId])) := by
  constructor
  · intro sponsor hcode hfind
    constructor
    · unfold register
      rw [hval, hnew, hcode, hfind]
      rfl
    · unfold creditSponsor
      rw [jsNumOr_zero]
  · intro sOk hnc
    rcases hnc with hc | hfind
    · unfold register
      rw [hval, hnew, hc]
      rfl
    · cases hc2 : jsFalsyStr req.referralCode
      · unfold register
        rw [hval, hnew, hc2, hfind]
        rfl
      · unfold register
        rw [hval, hnew, hc2]
        rfl

theorem register_sponsor_credit_witness :
    register sampleDb sampleReq 2 sampleHash ("GGNEWONE") true true =
      (.registered ⟨2, "b@x.com"⟩ "GGNEWONE",
       sampleDb.map (fun v => if v.id = w1.id then creditSponsor w1 else v) ++
         [mkNewUser sampleReq 2 (sampleHash ("pw2")) "GGNEWONE"],
       [.sponsorSave w1.id (creditSponsor w1).balance, .userSave 2]) ∧
    (creditSponsor w1).balance = some (w1.balance.getD 0 + 1000) ∧
    register sampleDb
      { sampleReq with email := some ("c@x.com"), referralCode := some ("bogus") }
      3 sampleHash ("GGNEWTWO") true true =
      (.registered ⟨3, "c@x.com"⟩ "GGNEWTWO",
       sampleDb ++
         [mkNewUser { sampleReq with email := some ("c@x.com"), referralCode := some ("bogus") }
           3 (sampleHash ("pw2")) "GGNEWTWO"],
       [.userSave 3]) := by
  have h1 := register_sponsor_credit sampleDb sampleReq 2 sampleHash ("GGNEWONE")
    rfl (by decide)
  have h2 := register_sponsor_credit sampleDb
    { sampleReq with email := some ("c@x.com"), referralCode := some ("bogus") }
    3 sampleHash ("GGNEWTWO") rfl (by decide)
  exact ⟨(h1.1 w1 rfl (by decide)).1, (h1.1 w1 rfl (by decide)).2,
    h2.2 true (Or.inr (by decide))⟩

/-- C2: when a sponsor is credited, the persisted-write order is sponsor save
strictly before the new-account save; and when the sponsor save succeeds but
the new-account save fails, the handler answers the generic 500 "Server error"
while the credited sponsor remains persisted and no account with the new email
exists in the store. -/
theorem sponsor_credit_before_user_save (db : List JsUser) (req : RegisterReq)
    (freshId : Nat) (hash : String → String) (userReferral : String)
    (sponsor : JsUser)
    (hval : (jsFalsyStr req.email || jsFalsyStr req.password) = false)
    (hnew : db.find? (fun v => req.email = some v.email) = none)
    (hcode : jsFalsyStr req.referralCode = false)
    (hfind : db.find? (fun v => req.referralCode = some v.referralCode) =
      some sponsor) :
    ((register db req freshId hash userReferral true true).2.2 =
      [.sponsorSave sponsor.id (creditSponsor sponsor).balance,
       .userSave freshId]) ∧
    (register db req freshId hash userReferral true false =
      (.err 500 "Server error",
       db.map (fun v => if v.id = sponsor.id then creditSponsor sponsor else v),
       [.sponsorSave sponsor.id (creditSponsor sponsor).balance])) ∧
    creditSponsor sponsor ∈
      (register db req freshId hash userReferral true false).2.1 ∧
    ((register db req freshId hash userReferral true false).2.1.find?
      (fun v => req.email = some v.email) = none) := by
  have hmem : sponsor ∈ db := List.mem_of_find?_eq_some hfind
  have hreg2 : register db req freshId hash userReferral true false =
      (.err 500 "Server error",
       db.map (fun v => if v.id = sponsor.id then creditSponsor sponsor else v),
       [.sponsorSave sponsor.id (creditSponsor sponsor).balance]) := by
    unfold register
    rw [hval, hnew, hcode, hfind]
    rfl
  refine ⟨?_, hreg2, ?_, ?_⟩
  · unfold register
    rw [hval, hnew, hcode, hfind]
    rfl
  · have hmm := List.mem_map_of_mem
      (fun v => if v.id = sponsor.id then creditSponsor sponsor else v) hmem
    rw [hreg2]
    simpa using hmm
  · rw [hreg2, List.find?_eq_none]
    intro x hx
    rcases List.mem_map.mp hx with ⟨v, hv, rfl⟩
    have hnone := List.find?_eq_none.mp hnew
    simp only [decide_eq_true_eq] at hnone ⊢
    by_cases hid : v.id = sponsor.id
    · rw [if_pos hid]
      exact fun hcontra => hnone sponsor hmem hcontra
    · rw [if_neg hid]
      exact hnone v hv

theorem sponsor_credit_before_user_save_witness :
    ((register sampleDb sampleReq 2 sampleHash ("GGNEWONE") true true).2.2 =
      [.sponsorSave 1 (some 1000), .userSave 2]) ∧
    register sampleDb sampleReq 2 sampleHash ("GGNEWONE") true false =
      (.err 500 "Server error",
       [creditSponsor w1],
       [.sponsorSave 1 (some 1000)]) ∧
    ((register sampleDb sampleReq 2 sampleHash ("GGNEWONE") true false).2.1.find?
      (fun v => sampleReq.email = some v.email) = none) := by
  have h := sponsor_credit_before_user_save sampleDb sampleReq 2 sampleHash
    ("GGNEWONE") w1 rfl (by decide) rfl (by decide)
  refine ⟨?_, ?_, h.2.2.2⟩
  · rw [h.1]
    decide
  · rw [h.2.1]
    decide

/-- Case analysis of the store a register call leaves behind: it is either the
old store with some (possibly empty) suffix appended — no existing record
touched — or, exactly when a sponsor was matched and the sponsor save
succeeded, the old store with the matched sponsor's record replaced by its
credited version, plus a suffix. -/
theorem register_store_cases (db : List JsUser) (req : RegisterReq)
    (freshId : Nat) (hash : String → String) (userReferral : String)
    (sOk uOk : Bool) :
    (∃ tail, (register db req freshId hash userReferral sOk uOk).2.1 =
      db ++ tail) ∨
    (∃ sponsor tail,
      db.find? (fun v => req.email = some v.email) = none ∧
      db.find? (fun v => req.referralCode = some v.referralCode) = some sponsor ∧
      sOk = true ∧
      (register db req freshId hash userReferral sOk uOk).2.1 =
        db.map (fun v => if v.id = sponsor.id then creditSponsor sponsor else v)
          ++ tail) := by
  cases hval : jsFalsyStr req.email || jsFalsyStr req.password with
  | true =>
    left
    refine ⟨[], ?_⟩
    unfold register
    rw [hval]
    simp
  | false =>
    cases hex : db.find? (fun v => req.email = some v.email) with
    | some w =>
      left
      refine ⟨[], ?_⟩
      unfold register
      rw [hval, hex]
      simp
    | none =>
      cases hcode : jsFalsyStr req.referralCode with
      | true =>
        left
        cases uOk with
        | true =>
          refine ⟨[mkNewUser req freshId (hash (req.password.getD (""))) userReferral], ?_⟩
          unfold register
          rw [hval, hex, hcode]
          rfl
        | false =>
          refine ⟨[], ?_⟩
          unfold register
          rw [hval, hex, hcode]
          simp
      | false =>
        cases hsp : db.find? (fun v => req.referralCode = some v.referralCode) with
        | none =>
          left
          cases uOk with
          | true =>
            refine ⟨[mkNewUser req freshId (hash (req.password.getD (""))) userReferral], ?_⟩
            unfold register
            rw [hval, hex, hcode, hsp]
            rfl
          | false =>
            refine ⟨[], ?_⟩
            unfold register
            rw [hval, hex, hcode, hsp]
            simp
        | some sponsor =>
          cases sOk with
          | false =>
            left
            refine ⟨[], ?_⟩
            unfold register
            rw [hval, hex, hcode, hsp]
            simp
          | true =>
            right
            cases uOk with
            | true =>
              refine ⟨sponsor,
                [mkNewUser req freshId (hash (req.password.getD (""))) userReferral],
                rfl, rfl, rfl, ?_⟩
              unfold register
              rw [hval, hex, hcode, hsp]
              rfl
            | false =>
              refine ⟨sponsor, [], rfl, rfl, rfl, ?_⟩
              unfold register
              rw [hval, hex, hcode, hsp]
              simp

/-- C8: across every operation, a pre-existing account keeps its id, email,
referral code and referredBy unchanged; its balance changes only when the
operation is a registration whose supplied code is that account's referral
code, the sponsor save succeeded, and the registrant is a different account
(its email is not the sponsor's), in which case the new balance is the old
one (0 when absent) plus 1000. -/
theorem store_invariants (op : Op) (db : List JsUser)
    (hnd : (db.map (fun v => v.id)).Nodup)
    (i : Nat) (u : JsUser) (hi : db.get? i = some u) :
    ∃ u2, (applyOp op db).get? i = some u2 ∧
      u2.id = u.id ∧ u2.email = u.email ∧ u2.referralCode = u.referralCode ∧
      u2.referredBy = u.referredBy ∧
      (u2.balance = u.balance ∨
        (u2.balance = some (jsNumOr u.balance 0 + 1000) ∧
         ∃ req freshId hash userReferral uOk,
           op = .register req freshId hash userReferral true uOk ∧
           req.referralCode = some u.referralCode ∧
           req.email ≠ some u.email)) := by
  obtain ⟨hlen, -⟩ := List.get?_eq_some.mp hi
  cases op with
  | login e p c => exact ⟨u, hi, rfl, rfl, rfl, rfl, Or.inl rfl⟩
  | me c f => exact ⟨u, hi, rfl, rfl, rfl, rfl, Or.inl rfl⟩
  | payment c => exact ⟨u, hi, rfl, rfl, rfl, rfl, Or.inl rfl⟩
  | register req freshId hash userReferral sOk uOk =>
    rcases register_store_cases db req freshId hash userReferral sOk uOk with
      ⟨tail, hc⟩ | ⟨sponsor, tail, hex, hsp, hsOk, hc⟩
    · refine ⟨u, ?_, rfl, rfl, rfl, rfl, Or.inl rfl⟩
      show (register db req freshId hash userReferral sOk uOk).2.1.get? i = some u
      rw [hc, List.get?_append hlen, hi]
    · subst hsOk
      have hmem1 : u ∈ db := List.get?_mem hi
      by_cases hid : u.id = sponsor.id
      · have husp : u = sponsor :=
          List.inj_on_of_nodup_map hnd hmem1 (List.mem_of_find?_eq_some hsp) hid
        subst husp
        refine ⟨creditSponsor u, ?_, rfl, rfl, rfl, rfl, Or.inr ⟨rfl, req,
          freshId, hash, userReferral, uOk, rfl, ?_, ?_⟩⟩
        · show (register db req freshId hash userReferral true uOk).2.1.get? i =
            some (creditSponsor u)
          rw [hc, List.get?_append (by simpa using hlen), List.get?_map, hi]
          simp
        · have hps := List.find?_some hsp
          exact of_decide_eq_true hps
        · intro hcon
          exact List.find?_eq_none.mp hex u hmem1 (by simpa using hcon)
      · refine ⟨u, ?_, rfl, rfl, rfl, rfl, Or.inl rfl⟩
        show (register db req freshId hash userReferral true uOk).2.1.get? i =
          some u
        rw [hc, List.get?_append (by simpa using hlen), List.get?_map, hi]
        simp [hid]

theorem store_invariants_witness :
    ∃ u2, (applyOp (.register sampleReq 2 sampleHash ("GGNEWONE") true true)
        sampleDb).get? 0 = some u2 ∧
      u2.id = w1.id ∧ u2.email = w1.email ∧ u2.referralCode = w1.referralCode ∧
      u2.referredBy = w1.referredBy ∧
      (u2.balance = w1.balance ∨
        (u2.balance = some (jsNumOr w1.balance 0 + 1000) ∧
         ∃ req freshId hash userReferral uOk,
           (Op.register sampleReq 2 sampleHash ("GGNEWONE") true true) =
             .register req freshId hash userReferral true uOk ∧
           req.referralCode = some w1.referralCode ∧
           req.email ≠ some w1.email)) :=
  store_invariants (.register sampleReq 2 sampleHash ("GGNEWONE") true true)
    sampleDb (by decide) 0 w1 (by decide)

end GreenGrow
